import Mathlib

/-!
Verification of the quiz application core (quiz_game.py): question
decoding, session state machine, review mode and leaderboard write.
Library calls that are external to the repository (the random shuffle
source, base64/utf-8 decoding, HTML unescaping, the HTTP layer and the
Firestore client) are modelled as explicit oracle parameters so that
every theorem quantifies over their behaviour.
-/

namespace QuizGame

/-- A decoded question row, as built by process_question_data:
question text, shuffled options, the correct answer, and the two
display-only metadata fields. -/
structure Question where
  question : String
  options : List String
  answer : String
  difficulty : String
  category : String
deriving Repr, DecidableEq

/-- A raw OpenTDB record as received (base64-encoded fields).  Each
field is optional: a missing key raises in Python and is modelled as
none, making the record undecodable. -/
structure RawItem where
  question : Option String
  correct_answer : Option String
  incorrect_answers : Option (List String)
  difficulty : Option String
  category : Option String
deriving Repr, DecidableEq

/-- Swap the elements at positions i and j of a list; identity when
either index is out of range.  This is the elementary step of
random.shuffle (Fisher-Yates). -/
def listSwap {α : Type} (xs : List α) (i j : Nat) : List α :=
  match xs[i]?, xs[j]? with
  | some a, some b => (xs.set i b).set j a
  | _, _ => xs

/-- Fisher-Yates downward loop: at step i+1 swap position i+1 with a
position drawn by the random oracle, then continue at i.  The oracle
gives the raw draw; it is reduced mod (i+2) exactly as random.shuffle
reduces randbelow(i+2). -/
def fyAux {α : Type} (rand : Nat → Nat) : Nat → List α → List α
  | 0, xs => xs
  | i + 1, xs => fyAux rand i (listSwap xs (i + 1) (rand (i + 1) % (i + 2)))

/-- Model of random.shuffle: Fisher-Yates from the last index down,
driven by the random oracle. -/
def pyShuffle {α : Type} (rand : Nat → Nat) (xs : List α) : List α :=
  fyAux rand (xs.length - 1) xs

/-- Replacing the element at position n by a and re-consing the old
element b in front is a permutation of consing a in front. -/
theorem cons_set_perm {α : Type} (a b : α) :
    ∀ (n : Nat) (l : List α), l[n]? = some b →
      List.Perm (b :: l.set n a) (a :: l) := by
  intro n
  induction n with
  | zero =>
    intro l h
    cases l with
    | nil => simp at h
    | cons c t =>
      simp only [List.getElem?_cons_zero, Option.some.injEq] at h
      subst h
      simpa using List.Perm.swap a c t
  | succ m ih =>
    intro l h
    cases l with
    | nil => simp at h
    | cons c t =>
      simp only [List.getElem?_cons_succ] at h
      have ht := ih t h
      have h1 : List.Perm (b :: c :: t.set m a) (c :: b :: t.set m a) :=
        List.Perm.swap c b _
      have h2 : List.Perm (c :: b :: t.set m a) (c :: a :: t) :=
        List.Perm.cons c ht
      have h3 : List.Perm (c :: a :: t) (a :: c :: t) :=
        List.Perm.swap a c t
      simpa using h1.trans (h2.trans h3)

/-- A swap is a permutation. -/
theorem listSwap_perm {α : Type} :
    ∀ (xs : List α) (i j : Nat), List.Perm (listSwap xs i j) xs := by
  intro xs
  induction xs with
  | nil => intro i j; simp [listSwap]
  | cons c t ih =>
    intro i j
    cases i with
    | zero =>
      cases j with
      | zero =>
        simp [listSwap]
      | succ m =>
        unfold listSwap
        cases hm : t[m]? with
        | none => simp [hm]
        | some b =>
          simp only [List.getElem?_cons_zero, List.getElem?_cons_succ, hm,
            List.set]
          exact cons_set_perm c b m t hm
    | succ n =>
      cases j with
      | zero =>
        unfold listSwap
        cases hn : t[n]? with
        | none => simp [hn]
        | some a =>
          simp only [List.getElem?_cons_zero, List.getElem?_cons_succ, hn,
            List.set]
          exact cons_set_perm c a n t hn
      | succ m =>
        unfold listSwap
        cases hn : t[n]? with
        | none => simp [hn]
        | some a =>
          cases hm : t[m]? with
          | none => simp [hn, hm]
          | some b =>
            simp only [List.getElem?_cons_succ, hn, hm, List.set]
            have h0 := ih n m
            unfold listSwap at h0
            simp only [hn, hm] at h0
            exact List.Perm.cons c h0

/-- Fisher-Yates output is a permutation of its input. -/
theorem fyAux_perm {α : Type} (rand : Nat → Nat) :
    ∀ (n : Nat) (xs : List α), List.Perm (fyAux rand n xs) xs := by
  intro n
  induction n with
  | zero => intro xs; exact List.Perm.refl xs
  | succ i ih =>
    intro xs
    exact List.Perm.trans (ih _) (listSwap_perm xs (i + 1) _)

/-- pyShuffle output is a permutation of its input. -/
theorem pyShuffle_perm {α : Type} (rand : Nat → Nat) (xs : List α) :
    List.Perm (pyShuffle rand xs) xs :=
  fyAux_perm rand _ xs

/-- Decode one textual field: base64+utf8 decoding (the oracle b64 may
fail, modelling binascii/utf-8 errors) then HTML unescaping. -/
def decodeField (b64 : String → Option String) (unesc : String → String)
    (f : Option String) : Option String :=
  (f.bind b64).map unesc

/-- Decode one raw record into a Question, as the loop body of
process_question_data: decode every field, build the option list as
incorrect answers followed by the correct answer, shuffle it.  Any
failure (missing key or decode error) yields none. -/
def process_item (b64 : String → Option String) (unesc : String → String)
    (rand : Nat → Nat) (item : RawItem) : Option Question :=
  (decodeField b64 unesc item.question).bind fun q =>
  (decodeField b64 unesc item.correct_answer).bind fun ca =>
  item.incorrect_answers.bind fun raw_ias =>
  (raw_ias.mapM (fun a => decodeField b64 unesc (some a))).bind fun ias =>
  (decodeField b64 unesc item.difficulty).bind fun diff =>
  (decodeField b64 unesc item.category).bind fun cat =>
  some { question := q, options := pyShuffle rand (ias ++ [ca]),
         answer := ca, difficulty := diff, category := cat }

/-- Model of process_question_data: decode each record, silently
dropping the ones that raise. -/
def process_question_data (b64 : String → Option String)
    (unesc : String → String) (rand : Nat → Nat)
    (results : List RawItem) : List Question :=
  results.filterMap (process_item b64 unesc rand)

/-- An answer record as appended by check_answer: the user answer is
optional because a rendered radio with no selection holds None. -/
structure AnswerRecord where
  question : String
  user_answer : Option String
  correct_answer : String
  is_correct : Bool
  explanation : Option String
deriving Repr, DecidableEq

/-- The session state: the st.session_state keys the core logic reads
and writes.  Keys that Python deletes are modelled by their reset
values (empty list, 0, false), matching every read site, which treats
a missing key as that default.  The radio field maps a question index
to the radio widget keyed by that index: none when the key is absent,
some c when the key exists with selection c (c = none models a
rendered radio with no choice made yet). -/
structure QuizState where
  questions : List Question
  num_questions : Nat
  score : Nat
  current_index : Nat
  submitted : Bool
  quiz_started : Bool
  score_submitted : Bool
  last_result : Option String
  review_mode : Bool
  answer_history : List AnswerRecord
  selected_difficulty : String
  selected_category : Nat
  radio : Nat → Option (Option String)

/-- Model of check_answer: if no radio key exists for the current
index, return with no change; otherwise read the current question row
(none models the IndexError that iloc would raise out of range),
record the answer, bump the score on a correct answer and advance the
index. -/
def check_answer (s : QuizState) : Option QuizState :=
  match s.radio s.current_index with
  | none => some s
  | some user_choice =>
    match s.questions[s.current_index]? with
    | none => none
    | some q =>
      let is_correct := decide (user_choice = some q.answer)
      some { s with
        submitted := true
        answer_history := s.answer_history ++
          [{ question := q.question, user_answer := user_choice,
             correct_answer := q.answer, is_correct := is_correct,
             explanation := none }]
        score := if is_correct then s.score + 1 else s.score
        last_result := some (if is_correct then
            "✅ Correct! Moving to the next question."
          else
            "❌ Incorrect. The correct answer was: **" ++ q.answer ++
              "**. Moving on.")
        current_index := s.current_index + 1 }

/-- The query parameter dictionary built by fetch_questions.  The
difficulty value is the selected difficulty unless it is the wildcard
"all", in which case the empty string is stored; the key itself is
always present in the dictionary. -/
def fetch_params (difficulty : String) (category_id : Nat)
    (amount : Nat) : List (String × String) :=
  [("amount", toString amount),
   ("category", toString category_id),
   ("difficulty", if difficulty ≠ "all" then difficulty else ""),
   ("type", "multiple"),
   ("encode", "base64")]

/-- The decoded JSON body of an OpenTDB response. -/
structure ApiResponse where
  response_code : Nat
  results : List RawItem

/-- Outcome of fetch_questions, given the HTTP answer as an oracle
(none = requests raised, i.e. network error or timeout): the returned
value (None on failure) and the error messages shown. -/
def fetch_questions (resp : Option ApiResponse) :
    Option (List RawItem) × List String :=
  match resp with
  | none =>
    (none, ["Network Error: Could not connect to the trivia service."])
  | some r =>
    if r.response_code = 0 then (some r.results, [])
    else (none, ["API Error: Could not fetch questions. Try Mix category or Very Easy difficulty."])

/-- Model of start_quiz: fetch, decode, and either install the new
session state or leave the state untouched (a falsy fetch result, None
or an empty list, takes the silent pass branch; a nonempty batch that
decodes to an empty frame shows an error).  Returns the new state and
the error messages displayed during the attempt. -/
def start_quiz (b64 : String → Option String) (unesc : String → String)
    (rand : Nat → Nat) (resp : Option ApiResponse) (s : QuizState) :
    QuizState × List String :=
  let fr := fetch_questions resp
  match fr.1 with
  | none => (s, fr.2)
  | some results =>
    if results.isEmpty then (s, fr.2)
    else
      let qs := process_question_data b64 unesc rand results
      if qs.isEmpty then
        (s, fr.2 ++
          ["Fetched questions were empty or corrupted. Please try again."])
      else
        ({ s with
            questions := qs
            num_questions := qs.length
            score := 0
            current_index := 0
            submitted := false
            quiz_started := true
            score_submitted := false
            last_result := none
            review_mode := false
            answer_history := [] }, fr.2)

/-- Model of reset_quiz: back to the settings screen.  Deleted keys
(quiz_started, questions_df, num_questions, answer_history) are
modelled by their absent-key defaults; the selected difficulty and
category are untouched. -/
def reset_quiz (s : QuizState) : QuizState :=
  { s with
      quiz_started := false
      current_index := 0
      score := 0
      submitted := false
      score_submitted := false
      last_result := none
      review_mode := false
      questions := []
      num_questions := 0
      answer_history := [] }

/-- The explanation-filling loop of toggle_review_mode: walk the
history in order; fetch and store an explanation for each record whose
explanation is still unset.  Also returns the trace of (question,
correct_answer) pairs actually sent to the explanation client, in
order. -/
def fill_explanations (fetchExp : String → String → String) :
    List AnswerRecord → List AnswerRecord × List (String × String)
  | [] => ([], [])
  | r :: rest =>
    let tail := fill_explanations fetchExp rest
    if r.explanation.isNone then
      ({ r with explanation := some (fetchExp r.question r.correct_answer) }
         :: tail.1,
       (r.question, r.correct_answer) :: tail.2)
    else (r :: tail.1, tail.2)

/-- Model of toggle_review_mode: entering review (review_mode
currently false) with a nonempty history and a configured API key
fills the missing explanations; with a missing (empty) key it only
warns and toggles; an empty history also just toggles.  Leaving review
toggles back.  Returns the new state and the trace of explanation
fetches performed. -/
def toggle_review_mode (apiKey : String)
    (fetchExp : String → String → String) (s : QuizState) :
    QuizState × List (String × String) :=
  if s.review_mode = false then
    if s.answer_history.isEmpty then
      ({ s with review_mode := true }, [])
    else if apiKey = "" then
      ({ s with review_mode := true }, [])
    else
      let filled := fill_explanations fetchExp s.answer_history
      ({ s with answer_history := filled.1, review_mode := true },
       filled.2)
  else
    ({ s with review_mode := false }, [])

/-- A leaderboard document as written by save_score_to_db; the
timestamp field is the server-side sentinel and carries no session
data, so it is omitted from the model. -/
structure LeaderboardEntry where
  username : String
  score : Nat
  total_questions : Nat
  percentage : ℚ
  difficulty : String
  category : String
deriving Repr, DecidableEq

/-- The percentage computed by save_score_to_db (and identically by
the results screen of main): (score / num_questions) * 100 guarded to
0 when there are no questions.  Python float division is modelled over
the rationals. -/
def percentage (score num_questions : Nat) : ℚ :=
  if num_questions > 0 then ((score : ℚ) / (num_questions : ℚ)) * 100
  else 0

/-- Model of save_score_to_db: db none models a missing Firestore
client (error message, nothing written); writeOk models whether
collection_ref.add succeeds (false = the exception branch, error
shown).  Returns the entry actually written, if any, and the messages
shown. -/
def save_score_to_db (db : Option Unit) (writeOk : Bool)
    (username : String) (score num_questions : Nat)
    (difficulty category : String) :
    Option LeaderboardEntry × List String :=
  match db with
  | none =>
    (none,
     ["Cannot save score: Firestore is not initialized or credentials are missing."])
  | some _ =>
    let entry : LeaderboardEntry :=
      { username := username, score := score,
        total_questions := num_questions,
        percentage := percentage score num_questions,
        difficulty := difficulty, category := category }
    if writeOk then
      (some entry,
       ["Score saved! Good job, " ++ username ++ "! Check the Leaderboard."])
    else (none, ["Error saving score to Firestore."])

/-- The score-submission step of the results screen in main: the form
is rendered only when score_submitted is false and the db client is
present; on a submit click with a nonempty username it calls
save_score_to_db and then unconditionally sets score_submitted; with
an empty username it only warns.  Returns the new state, the entry
actually written to the store (if any) and the messages shown. -/
def submit_score_flow (db : Option Unit) (writeOk : Bool)
    (username : String) (difficulty category : String) (s : QuizState) :
    QuizState × Option LeaderboardEntry × List String :=
  if s.score_submitted = false ∧ db.isSome then
    if username ≠ "" then
      let saved := save_score_to_db db writeOk username s.score
        s.num_questions difficulty category
      ({ s with score_submitted := true }, saved.1, saved.2)
    else
      (s, none, ["Please enter a username to submit your score."])
  else (s, none, [])

/-- The history-length invariant of the session state machine. -/
def history_invariant (s : QuizState) : Prop :=
  s.answer_history.length = s.current_index

/-- A sample decoded question used to instantiate theorems. -/
def sampleQuestion : Question :=
  { question := "Q1", options := ["A", "B", "C", "D"], answer := "A",
    difficulty := "easy", category := "General" }

/-- A sample in-progress session: one question, radio key present for
index 0 only. -/
def sampleState : QuizState where
  questions := [sampleQuestion]
  num_questions := 1
  score := 0
  current_index := 0
  submitted := false
  quiz_started := true
  score_submitted := false
  last_result := none
  review_mode := false
  answer_history := []
  selected_difficulty := "easy"
  selected_category := 9
  radio := fun n => if n = 0 then some (some "A") else none

/-- A sample completed session with one unexplained answer record. -/
def completedState : QuizState :=
  { sampleState with
      current_index := 1
      submitted := true
      answer_history :=
        [{ question := "Q1", user_answer := some "B",
           correct_answer := "A", is_correct := false,
           explanation := none }]
      radio := fun _ => none }

/-- A sample raw record that decodes successfully under an identity
decoding oracle. -/
def sampleRaw : RawItem :=
  { question := some "Q1", correct_answer := some "A",
    incorrect_answers := some ["B", "C", "D"],
    difficulty := some "easy", category := some "General" }

/-- A raw record with a missing question field: decoding it raises a
KeyError in Python, so process_question_data drops it. -/
def badRaw : RawItem :=
  { question := none, correct_answer := some "A",
    incorrect_answers := some ["B", "C", "D"],
    difficulty := some "easy", category := some "General" }

/-- Any question produced by the per-record decoder has its correct
answer among its options: the option list is a shuffle of the
incorrect answers with the correct answer appended. -/
theorem process_item_answer_mem (b64 : String → Option String)
    (unesc : String → String) (rand : Nat → Nat) (item : RawItem)
    (q : Question) (h : process_item b64 unesc rand item = some q) :
    q.answer ∈ q.options := by
  unfold process_item at h
  simp only [Option.bind_eq_some, Option.some.injEq] at h
  obtain ⟨qt, hqt, ca, hca, ias0, hias0, ias, hias, diff, hdiff, cat,
    hcat, hq⟩ := h
  subst hq
  simp only
  have hmem : ca ∈ ias ++ [ca] :=
    List.mem_append_right _ (List.mem_singleton.mpr rfl)
  exact ((pyShuffle_perm rand (ias ++ [ca])).mem_iff).mpr hmem

/-- What the explanation loop does to a single record: fetch and store
when the explanation is unset, return the record untouched otherwise. -/
def resolveRecord (fetchExp : String → String → String)
    (r : AnswerRecord) : AnswerRecord :=
  if r.explanation.isNone then
    { r with explanation := some (fetchExp r.question r.correct_answer) }
  else r

/-- The map/filter characterisation of the explanation filling loop:
each unresolved record gets the fetched explanation, resolved records
are returned as they are, and the fetch trace is exactly the
unresolved records in history order. -/
theorem fill_explanations_eq (fetchExp : String → String → String) :
    ∀ l : List AnswerRecord,
      fill_explanations fetchExp l =
        (l.map (resolveRecord fetchExp),
         (l.filter (fun r => r.explanation.isNone)).map
           (fun r => (r.question, r.correct_answer))) := by
  intro l
  induction l with
  | nil => rfl
  | cons r rest ih =>
    cases h : r.explanation.isNone <;>
      simp [fill_explanations, resolveRecord, ih, h]

/-- Filling explanations does not change the length of the history. -/
theorem fill_explanations_length (fetchExp : String → String → String)
    (l : List AnswerRecord) :
    (fill_explanations fetchExp l).1.length = l.length := by
  rw [fill_explanations_eq]
  simp

/-- Claim C4: every Question produced by process_question_data
satisfies correctAnswer ∈ options, for every batch and every decoding,
unescaping and shuffling oracle. -/
theorem decode_answer_mem_options (b64 : String → Option String)
    (unesc : String → String) (rand : Nat → Nat)
    (results : List RawItem) (q : Question)
    (h : q ∈ process_question_data b64 unesc rand results) :
    q.answer ∈ q.options := by
  unfold process_question_data at h
  obtain ⟨item, _, hitem⟩ := List.mem_filterMap.mp h
  exact process_item_answer_mem b64 unesc rand item q hitem

/-- The decoding of sampleRaw under the identity oracles. -/
def sampleDecoded : Question :=
  { question := "Q1",
    options := pyShuffle (fun _ => 0) (["B", "C", "D"] ++ ["A"]),
    answer := "A", difficulty := "easy", category := "General" }

/-- Witness for C4 at a concrete raw batch. -/
theorem decode_answer_mem_options_witness :
    sampleDecoded ∈
      process_question_data (fun x => some x) id (fun _ => 0)
        [sampleRaw] ∧
    sampleDecoded.answer ∈ sampleDecoded.options := by
  constructor
  · decide
  · exact decode_answer_mem_options (fun x => some x) id (fun _ => 0)
      [sampleRaw] sampleDecoded (by decide)

/-- Claim C8: a record that fails to decode is dropped silently while
the records around it are still decoded and returned. -/
theorem decode_drops_bad_record (b64 : String → Option String)
    (unesc : String → String) (rand : Nat → Nat)
    (pre post : List RawItem) (bad : RawItem)
    (h : process_item b64 unesc rand bad = none) :
    process_question_data b64 unesc rand (pre ++ bad :: post) =
      process_question_data b64 unesc rand pre ++
        process_question_data b64 unesc rand post := by
  simp [process_question_data, List.filterMap_append,
    List.filterMap_cons, h]

/-- Witness for C8: the record with the missing question field is
dropped, the surrounding records survive. -/
theorem decode_drops_bad_record_witness :
    process_item (fun x => some x) id (fun _ => 0) badRaw = none ∧
    process_question_data (fun x => some x) id (fun _ => 0)
        ([sampleRaw] ++ badRaw :: [sampleRaw]) =
      process_question_data (fun x => some x) id (fun _ => 0)
          [sampleRaw] ++
        process_question_data (fun x => some x) id (fun _ => 0)
          [sampleRaw] := by
  refine ⟨by decide, ?_⟩
  exact decode_drops_bad_record (fun x => some x) id (fun _ => 0)
    [sampleRaw] [sampleRaw] badRaw (by decide)

/-- Claim C10: invoking check_answer with no radio state recorded for
the current index returns immediately with the whole session state
unchanged. -/
theorem check_answer_no_radio_noop (s : QuizState)
    (h : s.radio s.current_index = none) :
    check_answer s = some s := by
  simp [check_answer, h]

/-- Witness for C10 at a concrete session state. -/
theorem check_answer_no_radio_noop_witness :
    completedState.radio completedState.current_index = none ∧
    check_answer completedState = some completedState :=
  ⟨rfl, check_answer_no_radio_noop completedState rfl⟩

/-- Claim C1: in an in-progress session, before the next question has
rendered its radio widget, a second invocation of check_answer is a
no-op: score, history and index are mutated at most once across the
two calls. -/
theorem check_answer_idempotent (s : QuizState)
    (h1 : s.current_index < s.num_questions)
    (h2 : s.radio (s.current_index + 1) = none) :
    (check_answer s).bind check_answer = check_answer s := by
  cases hr : s.radio s.current_index with
  | none => simp [check_answer, hr]
  | some uc =>
    cases hq : s.questions[s.current_index]? with
    | none => simp [check_answer, hr, hq]
    | some q => simp [check_answer, hr, hq, h2]

/-- Witness for C1 at a concrete in-progress session. -/
theorem check_answer_idempotent_witness :
    sampleState.current_index < sampleState.num_questions ∧
    sampleState.radio (sampleState.current_index + 1) = none ∧
    (check_answer sampleState).bind check_answer =
      check_answer sampleState :=
  ⟨by decide, rfl,
    check_answer_idempotent sampleState (by decide) rfl⟩

/-- Claim C3: the invariant len(history) = currentIndex is preserved
by every transition: start_quiz (failure leaves the state unchanged,
success establishes it afresh), check_answer, reset_quiz and
toggle_review_mode. -/
theorem history_invariant_preserved (b64 : String → Option String)
    (unesc : String → String) (rand : Nat → Nat)
    (resp : Option ApiResponse) (apiKey : String)
    (fetchExp : String → String → String) (s : QuizState)
    (hinv : history_invariant s) :
    history_invariant (start_quiz b64 unesc rand resp s).1 ∧
    (∀ s₁, check_answer s = some s₁ → history_invariant s₁) ∧
    history_invariant (reset_quiz s) ∧
    history_invariant (toggle_review_mode apiKey fetchExp s).1 := by
  refine ⟨?_, ?_, ?_, ?_⟩
  · unfold start_quiz
    cases resp with
    | none => exact hinv
    | some r =>
      by_cases hc : r.response_code = 0
      · by_cases he : r.results.isEmpty
        · simpa [fetch_questions, hc, he] using hinv
        · by_cases hq :
            (process_question_data b64 unesc rand r.results).isEmpty
          · simpa [fetch_questions, hc, he, hq] using hinv
          · simp [fetch_questions, hc, he, hq, history_invariant]
      · simpa [fetch_questions, hc] using hinv
  · intro s₁ h
    unfold check_answer at h
    cases hr : s.radio s.current_index with
    | none =>
      simp only [hr, Option.some.injEq] at h
      exact h ▸ hinv
    | some uc =>
      cases hq : s.questions[s.current_index]? with
      | none => simp [hr, hq] at h
      | some q =>
        simp only [hr, hq, Option.some.injEq] at h
        subst h
        simp [history_invariant] at hinv ⊢
        exact hinv
  · simp [history_invariant, reset_quiz]
  · by_cases hm : s.review_mode = false
    · by_cases hh : s.answer_history.isEmpty
      · simpa [toggle_review_mode, hm, hh, history_invariant] using hinv
      · by_cases hk : apiKey = ""
        · simpa [toggle_review_mode, hm, hh, hk, history_invariant]
            using hinv
        · simpa [toggle_review_mode, hm, hh, hk, history_invariant,
            fill_explanations_length] using hinv
    · simpa [toggle_review_mode, hm, history_invariant] using hinv

/-- Witness for C3: instantiated at a concrete session; the reset
component of the conjunction is extracted. -/
theorem history_invariant_preserved_witness :
    history_invariant sampleState ∧
    history_invariant (reset_quiz sampleState) :=
  ⟨rfl,
    (history_invariant_preserved (fun x => some x) id (fun _ => 0)
      none "" (fun _ _ => "") sampleState rfl).2.2.1⟩

/-- Claim C5 (amended): when the API key is configured (nonempty),
toggling review from a completed session with review mode off resolves
every unresolved record exactly once, sequentially in history order,
never re-fetches resolved records, and leaves every record with some
explanation string.  (With a missing key the code toggles without
fetching, see the counterexample.) -/
theorem toggle_review_fills_explanations (apiKey : String)
    (fetchExp : String → String → String) (s : QuizState)
    (hkey : apiKey ≠ "") (hmode : s.review_mode = false)
    (hcomp : s.current_index = s.num_questions) :
    (∀ r ∈ (toggle_review_mode apiKey fetchExp s).1.answer_history,
        r.explanation.isSome) ∧
    (toggle_review_mode apiKey fetchExp s).1.answer_history =
      s.answer_history.map (resolveRecord fetchExp) ∧
    (toggle_review_mode apiKey fetchExp s).2 =
      (s.answer_history.filter (fun r => r.explanation.isNone)).map
        (fun r => (r.question, r.correct_answer)) ∧
    (toggle_review_mode apiKey fetchExp s).1.review_mode = true := by
  have htog : toggle_review_mode apiKey fetchExp s =
      ({ s with
          answer_history := s.answer_history.map (resolveRecord fetchExp)
          review_mode := true },
       (s.answer_history.filter (fun r => r.explanation.isNone)).map
         (fun r => (r.question, r.correct_answer))) := by
    by_cases hh : s.answer_history.isEmpty
    · have h0 : s.answer_history = [] := by simpa using hh
      simp [toggle_review_mode, hmode, h0]
    · simp [toggle_review_mode, hmode, hh, hkey, fill_explanations_eq]
  rw [htog]
  refine ⟨?_, rfl, rfl, rfl⟩
  intro r hr
  simp only [List.mem_map] at hr
  obtain ⟨r0, _, rfl⟩ := hr
  unfold resolveRecord
  cases h : r0.explanation <;> simp [h]

/-- Witness for C5 at a concrete completed session with one
unresolved record and a configured key. -/
theorem toggle_review_fills_explanations_witness :
    ("k" : String) ≠ "" ∧
    completedState.review_mode = false ∧
    completedState.current_index = completedState.num_questions ∧
    (∀ r ∈ (toggle_review_mode "k" (fun _ a => "Because " ++ a)
        completedState).1.answer_history, r.explanation.isSome) :=
  ⟨by decide, rfl, rfl,
    (toggle_review_fills_explanations "k" (fun _ a => "Because " ++ a)
      completedState (by decide) rfl rfl).1⟩

/-- Claim C5 counterexample: with the Gemini key missing (empty
string), toggle_review_mode from a completed session with an
unresolved record toggles without fetching anything, so the record
keeps its explanation unset. -/
theorem toggle_review_missing_key_counterexample :
    completedState.review_mode = false ∧
    completedState.current_index = completedState.num_questions ∧
    ¬ (∀ r ∈ (toggle_review_mode "" (fun _ a => "Because " ++ a)
          completedState).1.answer_history, r.explanation.isSome) := by
  refine ⟨rfl, rfl, ?_⟩
  decide

/-- Claim C2 (amended): when the fetch fails (network error or
response_code ≠ 0), or a nonempty fetched batch decodes to zero
questions, start_quiz leaves the session state unchanged and shows an
error; a code-0 response carrying an empty results list also leaves
the state unchanged, but silently (no message at all). -/
theorem start_quiz_failure_state_unchanged (b64 : String → Option String)
    (unesc : String → String) (rand : Nat → Nat)
    (resp : Option ApiResponse) (s : QuizState) :
    ((resp = none ∨ (∃ r, resp = some r ∧ r.response_code ≠ 0) ∨
        (∃ r, resp = some r ∧ r.response_code = 0 ∧ r.results ≠ [] ∧
          process_question_data b64 unesc rand r.results = [])) →
      (start_quiz b64 unesc rand resp s).1 = s ∧
      (start_quiz b64 unesc rand resp s).2 ≠ []) ∧
    (∀ r, resp = some r → r.response_code = 0 → r.results = [] →
      start_quiz b64 unesc rand resp s = (s, [])) := by
  constructor
  · rintro (rfl | ⟨r, rfl, hc⟩ | ⟨r, rfl, hc, hne, hdec⟩)
    · simp [start_quiz, fetch_questions]
    · simp [start_quiz, fetch_questions, hc]
    · have hne2 : r.results.isEmpty = false := by
        simpa [List.isEmpty_iff] using hne
      simp [start_quiz, fetch_questions, hc, hne2, hdec]
  · rintro r rfl hc h0
    simp [start_quiz, fetch_questions, hc, h0]

/-- Witness for C2 at a concrete network failure. -/
theorem start_quiz_failure_state_unchanged_witness :
    (start_quiz (fun x => some x) id (fun _ => 0) none sampleState).1 =
      sampleState ∧
    (start_quiz (fun x => some x) id (fun _ => 0) none
      sampleState).2 ≠ [] :=
  (start_quiz_failure_state_unchanged (fun x => some x) id (fun _ => 0)
    none sampleState).1 (Or.inl rfl)

/-- Claim C2 counterexample: a successful response whose results list
is empty satisfies the decoded-to-zero-questions condition, and
start_quiz does leave the state unchanged, but no failure is reported:
the message list is empty. -/
theorem start_quiz_silent_empty_results :
    process_question_data (fun x => some x) id (fun _ => 0)
        ([] : List RawItem) = [] ∧
    (start_quiz (fun x => some x) id (fun _ => 0)
        (some (ApiResponse.mk 0 [])) sampleState).1 = sampleState ∧
    (start_quiz (fun x => some x) id (fun _ => 0)
        (some (ApiResponse.mk 0 [])) sampleState).2 = [] :=
  ⟨rfl, rfl, rfl⟩

/-- Claim C6 (amended): the submission flow sets scoreSubmitted to
true whenever it runs (flag still false, store client present,
nonempty username), regardless of whether the write succeeded — a
failed write still flips the flag.  When the store client is absent,
the submission form is not rendered, so the flow changes nothing and
scoreSubmitted stays false. -/
theorem submit_flow_sets_flag_regardless (db : Option Unit)
    (writeOk : Bool) (username difficulty category : String)
    (s : QuizState) :
    (s.score_submitted = false → db.isSome → username ≠ "" →
      (submit_score_flow db writeOk username difficulty category
        s).1.score_submitted = true) ∧
    (db = none →
      submit_score_flow db writeOk username difficulty category s =
        (s, none, [])) := by
  constructor
  · intro h1 h2 h3
    simp [submit_score_flow, h1, h2, h3]
  · rintro rfl
    simp [submit_score_flow]

/-- Witness for C6 at a concrete failing write. -/
theorem submit_flow_sets_flag_regardless_witness :
    sampleState.score_submitted = false ∧
    (some () : Option Unit).isSome ∧ ("u" : String) ≠ "" ∧
    (submit_score_flow (some ()) false "u" "Easy" "General"
      sampleState).1.score_submitted = true :=
  ⟨rfl, rfl, by decide,
    (submit_flow_sets_flag_regardless (some ()) false "u" "Easy"
      "General" sampleState).1 rfl rfl (by decide)⟩

/-- Claim C6 counterexample: the store is configured but the write
fails (collection add raises); nothing is written, yet scoreSubmitted
becomes true. -/
theorem submit_flow_failed_write_counterexample :
    (submit_score_flow (some ()) false "Pr1meGG" "Easy" "General"
      sampleState).2.1 = none ∧
    (submit_score_flow (some ()) false "Pr1meGG" "Easy" "General"
      sampleState).1.score_submitted = true := by
  constructor <;> decide

/-- Claim C7 (amended): the request dictionary always carries the
difficulty key; for the wildcard value "all" it is mapped to the empty
string (never the literal "all"), for any other difficulty to that
difficulty itself. -/
theorem fetch_params_difficulty_value (difficulty : String)
    (category_id amount : Nat) :
    (fetch_params difficulty category_id amount).lookup "difficulty" =
      some (if difficulty = "all" then "" else difficulty) := by
  by_cases hd : difficulty = "all" <;>
    simp [fetch_params, hd, List.lookup]

/-- Claim C7 counterexample: with the wildcard difficulty the
parameter is not absent from the request dictionary — it is present
and bound to the empty string. -/
theorem fetch_params_all_key_present :
    (fetch_params "all" 0 10).lookup "difficulty" = some "" ∧
    (fetch_params "all" 0 10).lookup "difficulty" ≠ none := by
  constructor <;> decide

/-- Claim C9: the leaderboard write stores
percentage = 100 * score / totalQuestions, and when totalQuestions is
zero the stored percentage is 0 (no division error). -/
theorem leaderboard_percentage_guarded (writeOk : Bool)
    (username difficulty category : String) (score num_questions : Nat)
    (e : LeaderboardEntry)
    (h : (save_score_to_db (some ()) writeOk username score
      num_questions difficulty category).1 = some e) :
    (num_questions = 0 → e.percentage = 0) ∧
    (num_questions ≠ 0 →
      e.percentage = 100 * (score : ℚ) / (num_questions : ℚ)) := by
  cases writeOk with
  | false => simp [save_score_to_db] at h
  | true =>
    simp only [save_score_to_db, if_true, Option.some.injEq] at h
    subst h
    constructor
    · intro h0
      simp [percentage, h0]
    · intro h0
      have hpos : 0 < num_questions := Nat.pos_of_ne_zero h0
      simp only [percentage, if_pos hpos]
      ring

/-- The entry written for a zero-question session. -/
def sampleEntry : LeaderboardEntry :=
  { username := "u", score := 0, total_questions := 0,
    percentage := percentage 0 0, difficulty := "d", category := "c" }

/-- Witness for C9 at the score=0, total=0 corner. -/
theorem leaderboard_percentage_guarded_witness :
    (save_score_to_db (some ()) true "u" 0 0 "d" "c").1 =
      some sampleEntry ∧
    sampleEntry.percentage = 0 :=
  ⟨rfl,
    (leaderboard_percentage_guarded true "u" "d" "c" 0 0 sampleEntry
      rfl).1 rfl⟩

end QuizGame
